import Mathlib

/-!
Verification of the Multi-SendSpin-Player-Container core: provider command
building and identifier generation (src/app/providers/*.py) and the process
supervision engine (src/app/managers/process_manager.py), shallowly embedded
in Lean 4.  Machine integers are modelled as Nat with explicit reduction
modulo 2^32 where the source's arithmetic wraps (MD5); byte strings are
List Nat with each entry < 256.
-/

set_option maxRecDepth 4000

/-! ## MD5 (the digest `hashlib.md5` computes), over byte lists -/

/-- Reduce to a 32-bit word, as CPython's C MD5 does implicitly. -/
def u32 (n : Nat) : Nat := n % 4294967296

/-- Bitwise complement on 32-bit words (for x < 2^32 this is XOR with the
all-ones mask). -/
def not32 (x : Nat) : Nat := 4294967295 - u32 x

/-- Rotate a 32-bit word left by s bits (0 < s < 32 at every call site). -/
def rotl32 (x s : Nat) : Nat := (u32 x * 2 ^ s + u32 x / 2 ^ (32 - s)) % 4294967296

/-- The 64 MD5 round constants, floor(abs(sin(i+1)) * 2^32) (RFC 1321). -/
def md5K : List Nat :=
  [0xd76aa478, 0xe8c7b756, 0x242070db, 0xc1bdceee,
   0xf57c0faf, 0x4787c62a, 0xa8304613, 0xfd469501,
   0x698098d8, 0x8b44f7af, 0xffff5bb1, 0x895cd7be,
   0x6b901122, 0xfd987193, 0xa679438e, 0x49b40821,
   0xf61e2562, 0xc040b340, 0x265e5a51, 0xe9b6c7aa,
   0xd62f105d, 0x02441453, 0xd8a1e681, 0xe7d3fbc8,
   0x21e1cde6, 0xc33707d6, 0xf4d50d87, 0x455a14ed,
   0xa9e3e905, 0xfcefa3f8, 0x676f02d9, 0x8d2a4c8a,
   0xfffa3942, 0x8771f681, 0x6d9d6122, 0xfde5380c,
   0xa4beea44, 0x4bdecfa9, 0xf6bb4b60, 0xbebfbc70,
   0x289b7ec6, 0xeaa127fa, 0xd4ef3085, 0x04881d05,
   0xd9d4d039, 0xe6db99e5, 0x1fa27cf8, 0xc4ac5665,
   0xf4292244, 0x432aff97, 0xab9423a7, 0xfc93a039,
   0x655b59c3, 0x8f0ccc92, 0xffeff47d, 0x85845dd1,
   0x6fa87e4f, 0xfe2ce6e0, 0xa3014314, 0x4e0811a1,
   0xf7537e82, 0xbd3af235, 0x2ad7d2bb, 0xeb86d391]

/-- The 64 MD5 per-round left-rotation amounts (RFC 1321). -/
def md5S : List Nat :=
  [7, 12, 17, 22, 7, 12, 17, 22, 7, 12, 17, 22, 7, 12, 17, 22,
   5, 9, 14, 20, 5, 9, 14, 20, 5, 9, 14, 20, 5, 9, 14, 20,
   4, 11, 16, 23, 4, 11, 16, 23, 4, 11, 16, 23, 4, 11, 16, 23,
   6, 10, 15, 21, 6, 10, 15, 21, 6, 10, 15, 21, 6, 10, 15, 21]

/-- One MD5 round, on state (A, B, C, D); M gives the chunk's 16 words. -/
def md5Step (M : Nat → Nat) (st : Nat × Nat × Nat × Nat) (i : Nat) :
    Nat × Nat × Nat × Nat :=
  let a := st.1
  let b := st.2.1
  let c := st.2.2.1
  let d := st.2.2.2
  let f :=
    if i < 16 then (b &&& c) ||| (not32 b &&& d)
    else if i < 32 then (d &&& b) ||| (not32 d &&& c)
    else if i < 48 then b ^^^ c ^^^ d
    else c ^^^ (b ||| not32 d)
  let g :=
    if i < 16 then i
    else if i < 32 then (5 * i + 1) % 16
    else if i < 48 then (3 * i + 5) % 16
    else (7 * i) % 16
  let f2 := u32 (f + a + md5K.getD i 0 + M g)
  (d, u32 (b + rotl32 f2 (md5S.getD i 0)), b, c)

/-- Little-endian 32-bit word from four consecutive bytes of a chunk. -/
def leWord (l : List Nat) : Nat :=
  l.getD 0 0 + 256 * l.getD 1 0 + 65536 * l.getD 2 0 + 16777216 * l.getD 3 0

/-- Process one 64-byte chunk, updating the running MD5 state. -/
def md5Chunk (st : Nat × Nat × Nat × Nat) (chunk : List Nat) :
    Nat × Nat × Nat × Nat :=
  let M := fun g => leWord (chunk.drop (4 * g))
  let r := (List.range 64).foldl (md5Step M) st
  (u32 (st.1 + r.1), u32 (st.2.1 + r.2.1), u32 (st.2.2.1 + r.2.2.1),
   u32 (st.2.2.2 + r.2.2.2))

/-- Split a byte list into 64-byte chunks, with explicit structural fuel
(an upper bound on the number of chunks) so the definition reduces in the
kernel; `chunks64` supplies fuel that is always sufficient. -/
def chunks64Go : Nat → List Nat → List (List Nat)
  | 0, _ => []
  | _, [] => []
  | fuel + 1, b :: rest => ((b :: rest).take 64) :: chunks64Go fuel ((b :: rest).drop 64)

/-- Split a byte list into 64-byte chunks (the input is always padded to a
multiple of 64 bytes before this is applied). -/
def chunks64 (l : List Nat) : List (List Nat) := chunks64Go l.length l

/-- A Nat as 8 little-endian bytes (the bit-length field of MD5 padding). -/
def le8 (n : Nat) : List Nat :=
  [n % 256, n / 256 % 256, n / 65536 % 256, n / 16777216 % 256,
   n / 4294967296 % 256, n / 1099511627776 % 256,
   n / 281474976710656 % 256, n / 72057594037927936 % 256]

/-- MD5 padding: append 0x80, zero bytes to 56 mod 64, then the 64-bit
little-endian bit length. -/
def md5Pad (msg : List Nat) : List Nat :=
  msg ++ 0x80 :: List.replicate ((119 - msg.length % 64) % 64) 0 ++ le8 (8 * msg.length)

/-- The MD5 initial state (A0, B0, C0, D0). -/
def md5Init : Nat × Nat × Nat × Nat := (0x67452301, 0xefcdab89, 0x98badcfe, 0x10325476)

/-- Serialize the final state into the 16-byte digest (little-endian words). -/
def digest_bytes (a b c d : Nat) : List Nat :=
  [a % 256, a / 256 % 256, a / 65536 % 256, a / 16777216 % 256,
   b % 256, b / 256 % 256, b / 65536 % 256, b / 16777216 % 256,
   c % 256, c / 256 % 256, c / 65536 % 256, c / 16777216 % 256,
   d % 256, d / 256 % 256, d / 65536 % 256, d / 16777216 % 256]

/-- MD5 of a byte list: the 16-byte digest. -/
def md5 (msg : List Nat) : List Nat :=
  let st := (chunks64 (md5Pad msg)).foldl md5Chunk md5Init
  digest_bytes st.1 st.2.1 st.2.2.1 st.2.2.2

/-! ## UTF-8 encoding (Python's `str.encode()`), hex formatting -/

/-- UTF-8 encoding of one scalar value, as Python's str.encode produces. -/
def utf8Char (c : Char) : List Nat :=
  let n := c.toNat
  if n < 128 then [n]
  else if n < 2048 then [192 + n / 64, 128 + n % 64]
  else if n < 65536 then [224 + n / 4096, 128 + n / 64 % 64, 128 + n % 64]
  else [240 + n / 262144, 128 + n / 4096 % 64, 128 + n / 64 % 64, 128 + n % 64]

/-- UTF-8 bytes of a string (`name.encode()` in the source). -/
def utf8Bytes (s : String) : List Nat :=
  s.data.foldr (fun c acc => utf8Char c ++ acc) []

/-- Lowercase hex digit for a value < 16. -/
def hexChar (n : Nat) : Char :=
  if n < 10 then Char.ofNat (48 + n) else Char.ofNat (87 + n)

/-- Two lowercase hex digits for a byte (Python's `f"{b:02x}"`; every byte
formatted in the source is < 256). -/
def toHex2 (b : Nat) : String := String.mk [hexChar (b / 16 % 16), hexChar (b % 16)]

/-- Lowercase hex string of a byte list (Python's `.hexdigest()`). -/
def hexdigest (bytes : List Nat) : String := String.join (bytes.map toHex2)

/-! ## Deterministic identifier generation (squeezelite, sendspin, snapcast) -/

/-- The six MAC bytes: first six MD5 bytes of the UTF-8 name, with the first
octet ORed with 0x02 (locally administered) and ANDed with 0xFE (unicast) —
the `mac_bytes` local of `SqueezeliteProvider.generate_mac_address`. -/
def macBytes (name : String) : List Nat :=
  match (md5 (utf8Bytes name)).take 6 with
  | b0 :: rest => ((b0 ||| 2) &&& 254) :: rest
  | [] => []

/-- `SqueezeliteProvider.generate_mac_address`: deterministic MAC address from
the player name, formatted as colon-separated lowercase hex octets. -/
def generate_mac_address (name : String) : String :=
  String.intercalate ":" ((macBytes name).map toHex2)

/-- ASCII lowercasing of one character (models Python's `str.lower()`, with
which it coincides on ASCII input). -/
def pyLowerChar (c : Char) : Char :=
  if 'A' ≤ c ∧ c ≤ 'Z' then Char.ofNat (c.toNat + 32) else c

/-- `name.lower().replace(" ", "-")[:20]` — the `safe_name` of the sendspin
and snapcast id generators. -/
def sanitizeName (name : String) : String :=
  String.mk (((name.data.map pyLowerChar).map
    (fun c => if c = ' ' then '-' else c)).take 20)

/-- `SendspinProvider._generate_client_id`: `sendspin-<safe_name>-<hash8>`. -/
def generate_client_id (name : String) : String :=
  "sendspin" ++ "-" ++ sanitizeName name ++ "-" ++ (hexdigest (md5 (utf8Bytes name))).take 8

/-- `SnapcastProvider.generate_host_id`: `snapcast-<safe_name>-<hash12>`. -/
def generate_host_id (name : String) : String :=
  "snapcast" ++ "-" ++ sanitizeName name ++ "-" ++ (hexdigest (md5 (utf8Bytes name))).take 12

/-! ## PlayerConfig — the open configuration dictionary

The providers read and write a fixed set of keys; each is a field here, with
`none` standing for "key absent".  Keys the providers never touch are kept in
`extra` and pass through untouched.  Python dict equality is key/value-map
equality, which structure equality models. -/

/-- An opaque configuration value for provider-unknown keys. -/
inductive PyVal where
  | vstr (s : String)
  | vint (n : Int)
  | vbool (b : Bool)
deriving DecidableEq, Repr

@[ext]
structure Config where
  name : Option String := none
  provider : Option String := none
  device : Option String := none
  server_ip : Option String := none
  mac_address : Option String := none
  client_id : Option String := none
  host_id : Option String := none
  delay_ms : Option Int := none
  latency : Option Int := none
  log_level : Option String := none
  volume : Option Int := none
  autostart : Option Bool := none
  extra : List (String × PyVal) := []
deriving DecidableEq, Repr

/-- One key of `dict.update`: the user's value when the key is present,
otherwise the default's. -/
def updF {α : Type} (d u : Option α) : Option α :=
  match u with
  | some v => some v
  | none => d

/-- `result = defaults; result.update(config)` — keys present in the
user config win, remaining default keys survive.  The three providers'
defaults carry no `extra` keys, so `extra` is the user's. -/
def dictUpdate (defaults user : Config) : Config where
  name := updF defaults.name user.name
  provider := updF defaults.provider user.provider
  device := updF defaults.device user.device
  server_ip := updF defaults.server_ip user.server_ip
  mac_address := updF defaults.mac_address user.mac_address
  client_id := updF defaults.client_id user.client_id
  host_id := updF defaults.host_id user.host_id
  delay_ms := updF defaults.delay_ms user.delay_ms
  latency := updF defaults.latency user.latency
  log_level := updF defaults.log_level user.log_level
  volume := updF defaults.volume user.volume
  autostart := updF defaults.autostart user.autostart
  extra := user.extra

/-- Python falsiness of `result.get(key)` for a string key: absent or `""`. -/
def blankS (o : Option String) : Bool := (o.getD "").isEmpty

/-- Python truthiness of `result.get(key)` for a string key. -/
def truthyS (o : Option String) : Bool := !(o.getD "").isEmpty

/-- `SqueezeliteProvider.get_default_config()`. -/
def squeezelite_default_config : Config :=
  { provider := some "squeezelite", device := some "default", server_ip := some "",
    mac_address := some "", volume := some 75, autostart := some false }

/-- `SendspinProvider.get_default_config()`. -/
def sendspin_default_config : Config :=
  { provider := some "sendspin", device := some "default", client_id := some "",
    delay_ms := some 0, log_level := some "INFO", volume := some 75,
    autostart := some false }

/-- `SnapcastProvider.get_default_config()`. -/
def snapcast_default_config : Config :=
  { provider := some "snapcast", device := some "default", server_ip := some "",
    host_id := some "", latency := some 0, volume := some 75,
    autostart := some false }

/-- `SqueezeliteProvider.prepare_config`: defaults updated by the user config,
then a MAC address generated when the merged one is falsy and a name is
present. -/
def squeezelite_prepare_config (config : Config) : Config :=
  let result := dictUpdate squeezelite_default_config config
  if blankS result.mac_address && truthyS result.name then
    { result with mac_address := some (generate_mac_address (result.name.getD "")) }
  else result

/-- `SendspinProvider.prepare_config`. -/
def sendspin_prepare_config (config : Config) : Config :=
  let result := dictUpdate sendspin_default_config config
  if blankS result.client_id && truthyS result.name then
    { result with client_id := some (generate_client_id (result.name.getD "")) }
  else result

/-- `SnapcastProvider.prepare_config`. -/
def snapcast_prepare_config (config : Config) : Config :=
  let result := dictUpdate snapcast_default_config config
  if blankS result.host_id && truthyS result.name then
    { result with host_id := some (generate_host_id (result.name.getD "")) }
  else result

/-! ## Provider build_command -/

/-- Python's `str.startswith`, at the character-list level. -/
def pyStartsWith (s pre : String) : Bool := pre.data.isPrefixOf s.data

/-- `SendspinProvider.build_command`.  `none` models the KeyError that
`player["name"]` raises when the key is absent; the `--id` value falls back to
the generated client id only when the `client_id` KEY is absent
(`player.get` with a default). -/
def sendspin_build_command (player : Config) : Option (List String) :=
  match player.name with
  | none => none
  | some name =>
    let cid := player.client_id.getD (generate_client_id name)
    let base := ["sendspin", "--headless", "--name", name, "--id", cid]
    let device := player.device.getD "default"
    let devPart :=
      if device ≠ "" ∧ device ≠ "default" ∧ device ≠ "null" then
        if pyStartsWith device "hw:" || pyStartsWith device "plughw:" then []
        else if pyStartsWith device "alsa_output." || pyStartsWith device "alsa_input." then []
        else ["--audio-device", device]
      else []
    let delayPart :=
      match player.delay_ms with
      | some d => if d ≠ 0 then ["--static-delay-ms", toString d] else []
      | none => []
    let ll := player.log_level.getD "INFO"
    some (base ++ devPart ++ delayPart ++ ["--log-level", ll])

/-- `SnapcastProvider.build_command`; `backend` stands for the external
`get_player_backend_for_snapcast()` environment helper. -/
def snapcast_build_command (backend : String) (player : Config) : List String :=
  let hostPart :=
    match player.server_ip with
    | some ip => if ip ≠ "" then ["--host", ip] else []
    | none => []
  let device := player.device.getD "default"
  let devPart := if device ≠ "" ∧ device ≠ "default" then ["--soundcard", device] else []
  let hostIdPart :=
    match player.host_id with
    | some h => if h ≠ "" then ["--hostID", h] else []
    | none => []
  let lat := player.latency.getD 0
  let latPart := if lat ≠ 0 then ["--latency", toString lat] else []
  ["snapclient"] ++ hostPart ++ devPart ++ hostIdPart ++ latPart
    ++ ["--player", backend] ++ ["--logsink", "stderr"]

/-- The external environment of `SqueezeliteProvider.build_command`:
`get_squeezelite_output_device` (device translation, external module) and the
four buffer settings read from environment variables at import time (defaults
shown). -/
structure SqueezeliteEnv where
  outputDevice : String → String
  bufferSize : String := "80"
  bufferParams : String := "500:2000"
  closeTimeout : String := "5"
  sampleRate : String := "44100"

/-- `SqueezeliteProvider.build_command`.  `none` models the KeyError raised
when `name`, `device` or `mac_address` is absent. -/
def squeezelite_build_command (env : SqueezeliteEnv) (player : Config) :
    Option (List String) :=
  match player.name, player.device, player.mac_address with
  | some name, some device, some mac =>
    let output_device := env.outputDevice device
    let base := ["squeezelite", "-n", name, "-o", output_device, "-m", mac]
    let serverPart :=
      match player.server_ip with
      | some ip => if ip ≠ "" then ["-s", ip] else []
      | none => []
    let bufPart := ["-a", env.bufferSize, "-b", env.bufferParams, "-C", env.closeTimeout]
    let ratePart := if device = "null" then ["-r", env.sampleRate] else []
    some (base ++ serverPart ++ bufPart ++ ratePart)
  | _, _, _ => none

/-! ## Log streamer (`_stream_output`)

`line.decode("utf-8", errors="replace")` never raises for bytes input: each
maximal ill-formed subsequence is replaced by U+FFFD.  The decoder below
returns `none` for each replacement so that "the bytes failed to decode"
remains expressible. -/

/-- Whether a byte is a UTF-8 continuation byte. -/
def contB (b : Nat) : Bool := 128 ≤ b && b ≤ 191

/-- Decode one UTF-8 sequence: the scalar (or `none` for an ill-formed
maximal subpart) and how many bytes of `rest` were consumed beyond the lead. -/
def utf8Step (b : Nat) (rest : List Nat) : Option Char × Nat :=
  if b < 128 then (some (Char.ofNat b), 0)
  else if 194 ≤ b && b ≤ 223 then
    match rest with
    | c :: _ => if contB c then (some (Char.ofNat ((b - 192) * 64 + (c - 128))), 1) else (none, 0)
    | [] => (none, 0)
  else if 224 ≤ b && b ≤ 239 then
    let okC1 := fun c => if b = 224 then 160 ≤ c && c ≤ 191
                         else if b = 237 then 128 ≤ c && c ≤ 159
                         else contB c
    match rest with
    | c :: d :: _ =>
      if okC1 c then
        if contB d then (some (Char.ofNat ((b - 224) * 4096 + (c - 128) * 64 + (d - 128))), 2)
        else (none, 1)
      else (none, 0)
    | [c] => if okC1 c then (none, 1) else (none, 0)
    | [] => (none, 0)
  else if 240 ≤ b && b ≤ 244 then
    let okC1 := fun c => if b = 240 then 144 ≤ c && c ≤ 191
                         else if b = 244 then 128 ≤ c && c ≤ 143
                         else contB c
    match rest with
    | c :: d :: e :: _ =>
      if okC1 c then
        if contB d then
          if contB e then
            (some (Char.ofNat ((b - 240) * 262144 + (c - 128) * 4096 + (d - 128) * 64 + (e - 128))), 3)
          else (none, 2)
        else (none, 1)
      else (none, 0)
    | [c, d] => if okC1 c then (if contB d then (none, 2) else (none, 1)) else (none, 0)
    | [c] => if okC1 c then (none, 1) else (none, 0)
    | [] => (none, 0)
  else (none, 0)

/-- UTF-8 decoding with replacement markers, with structural fuel (an upper
bound on the number of decoded sequences) so it reduces in the kernel. -/
def utf8DecodeGo : Nat → List Nat → List (Option Char)
  | 0, _ => []
  | _, [] => []
  | fuel + 1, b :: rest =>
    let s := utf8Step b rest
    s.1 :: utf8DecodeGo fuel (rest.drop s.2)

/-- UTF-8 decoding with replacement markers: `none` entries mark the maximal
ill-formed subparts that `errors="replace"` turns into U+FFFD. -/
def utf8Decode (l : List Nat) : List (Option Char) := utf8DecodeGo l.length l

/-- `bytes.decode("utf-8", errors="replace")`. -/
def pyDecodeReplace (bs : List Nat) : String :=
  String.mk ((utf8Decode bs).map (fun oc => oc.getD (Char.ofNat 65533)))

/-- Whether the byte list is well-formed UTF-8 (no replacement was needed),
i.e. whether a strict decode of the line would have succeeded. -/
def utf8WellFormed (bs : List Nat) : Bool := (utf8Decode bs).all (·.isSome)

/-- Python's `str.rstrip()` on ASCII whitespace. -/
def pyIsSpace (c : Char) : Bool :=
  c = ' ' || c = '\t' || c = '\n' || c = '\r' || c = Char.ofNat 11 || c = Char.ofNat 12

/-- `decoded.rstrip()`. -/
def pyRstrip (s : String) : String :=
  String.mk ((s.data.reverse.dropWhile pyIsSpace).reverse)

/-- What one iteration of `_stream_output`'s read loop observes. -/
inductive StreamItem where
  /-- `stream.readline()` returned a bytes object (empty means EOF). -/
  | bytes (bs : List Nat)
  /-- `readline` returned a non-bytes object (test mocks): `.decode` raises
  AttributeError or TypeError. -/
  | nonBytes
  /-- `readline` raised OSError or ValueError (stream closed). -/
  | readError
  /-- The stop event was observed set at the top of the iteration. -/
  | stopSignal
deriving DecidableEq, Repr

/-- The observable output of a `_stream_output` run: the prefixed lines
printed to stdout and the lines appended to the log file. -/
structure StreamOut where
  console : List String
  fileWrites : List String
deriving DecidableEq, Repr

/-- The loop body of `_stream_output`, over the sequence of read outcomes.
Exceptions while printing or writing the log file are suppressed per line and
do not affect control flow, so they are not modelled. -/
def stream_output (pfx : String) (hasLogFile : Bool) : List StreamItem → StreamOut
  | [] => ⟨[], []⟩
  | .stopSignal :: _ => ⟨[], []⟩
  | .readError :: _ => ⟨[], []⟩
  | .nonBytes :: _ => ⟨[], []⟩
  | .bytes bs :: rest =>
    if bs.isEmpty then ⟨[], []⟩
    else
      let decoded := pyRstrip (pyDecodeReplace bs)
      let out := stream_output pfx hasLogFile rest
      if decoded = "" then out
      else ⟨(pfx ++ " " ++ decoded) :: out.console,
            if hasLogFile then (decoded ++ "\n") :: out.fileWrites else out.fileWrites⟩

/-- The `prefix` local of `_stream_output`. -/
def stream_prefix (name stream_type : String) : String :=
  if stream_type = "stderr" then "[" ++ name ++ ":ERR]" else "[" ++ name ++ "]"

/-! ## Process supervision engine (`ProcessManager`)

The OS is abstracted into per-call behaviours: what `Popen`/`poll` and the
signalling/waiting calls do.  Pure state is threaded explicitly, and an event
trace records each spawn attempt and each streaming setup/cleanup call. -/

/-- A tracked `subprocess.Popen` handle: its pid and whether a non-blocking
`poll()` now reports an exit code. -/
structure Proc where
  pid : Nat
  dead : Bool
deriving DecidableEq, Repr

/-- The mutable state of a `ProcessManager`: the name→handle table and the
three per-name streaming-resource tables. -/
structure PMState where
  processes : List (String × Proc) := []
  stop_events : List String := []
  stream_threads : List String := []
  log_files : List String := []
deriving DecidableEq, Repr

/-- `self.processes[name]` lookup. -/
def PMState.getProc (st : PMState) (name : String) : Option Proc :=
  st.processes.lookup name

/-- `self.processes[name] = process` (dict assignment replaces). -/
def PMState.setProc (st : PMState) (name : String) (p : Proc) : PMState :=
  { st with processes := (name, p) :: st.processes.filter (fun kv => kv.1 != name) }

/-- `del self.processes[name]`. -/
def PMState.removeProc (st : PMState) (name : String) : PMState :=
  { st with processes := st.processes.filter (fun kv => kv.1 != name) }

/-- Trace events: each `Popen` call, each `_setup_streaming` call and each
`_cleanup_streaming` call. -/
inductive PMEvent where
  | spawnAttempt (cmd : List String)
  | setupStreaming (name : String)
  | cleanupStreaming (name : String)
deriving DecidableEq, Repr

/-- `_cleanup_streaming`: set-and-drop the stop event, join-and-drop the
reader threads, close-and-drop the log file handle. -/
def cleanup_streaming (st : PMState) (name : String) : PMState :=
  { st with stop_events := st.stop_events.filter (· != name),
            stream_threads := st.stream_threads.filter (· != name),
            log_files := st.log_files.filter (· != name) }

/-- `_setup_streaming`: create the stop event, open the log file and start
the two reader threads (the log-open-failure degradation is not exercised by
any claim and is modelled as success). -/
def setup_streaming (st : PMState) (name : String) : PMState :=
  { st with stop_events := name :: st.stop_events.filter (· != name),
            stream_threads := name :: st.stream_threads.filter (· != name),
            log_files := name :: st.log_files.filter (· != name) }

/-- How many times `_cleanup_streaming` ran for `name` in a trace. -/
def count_cleanup (evs : List PMEvent) (name : String) : Nat :=
  (evs.filter (· == PMEvent.cleanupStreaming name)).length

/-- `ProcessManager.is_running`: tracked and `poll()` is None. -/
def ProcessManager.is_running (st : PMState) (name : String) : Bool :=
  match st.getProc name with
  | some p => !p.dead
  | none => false

/-- What the OS does for one `Popen` call plus the startup-grace poll. -/
inductive SpawnResult where
  /-- The spawn succeeded; `dead` is what `poll()` reports after the grace
  period, `stderrText` the drained stderr if it died, `pid` its pid. -/
  | ok (dead : Bool) (stderrText : String) (pid : Nat)
  /-- `Popen` raised FileNotFoundError; `etext` is `str(e)`. -/
  | fileNotFound (etext : String)
  /-- `Popen` raised some other exception with text `etext`. -/
  | raised (etext : String)
deriving DecidableEq, Repr

/-- Outcome of `start`/`_start_fallback`: the returned (success, message)
pair, the state after the call, and the event trace of the call. -/
structure StartResult where
  ok : Bool
  msg : String
  st : PMState
  events : List PMEvent
deriving DecidableEq, Repr

/-- `ProcessManager._start_fallback`.  Note its `try` has only a generic
`except Exception` handler: FileNotFoundError is caught there too. -/
def ProcessManager.start_fallback (st : PMState) (name : String)
    (cmd : List String) (b : SpawnResult) : StartResult :=
  match b with
  | .fileNotFound e => ⟨false, s!"Error starting fallback: {e}", st, [.spawnAttempt cmd]⟩
  | .raised e => ⟨false, s!"Error starting fallback: {e}", st, [.spawnAttempt cmd]⟩
  | .ok dead stderrText pid =>
    let st2 := st.setProc name ⟨pid, dead⟩
    if dead then
      let errMsg := if stderrText = "" then "Unknown error" else stderrText
      ⟨false, s!"Fallback also failed: {errMsg}", st2, [.spawnAttempt cmd]⟩
    else
      ⟨true, s!"Process '{name}' started with fallback configuration",
       setup_streaming st2 name, [.spawnAttempt cmd, .setupStreaming name]⟩

/-- `ProcessManager.start`.  `b1` drives the primary spawn, `b2` the fallback
spawn (used only when the fallback runs).  `if fallback_command:` is Python
truthiness: `None` and the empty list both skip the fallback. -/
def ProcessManager.start (st : PMState) (name : String) (cmd : List String)
    (fallback_command : Option (List String)) (b1 b2 : SpawnResult) : StartResult :=
  if ProcessManager.is_running st name then
    ⟨false, s!"Process '{name}' is already running", st, []⟩
  else
    let st1 := cleanup_streaming st name
    let evs : List PMEvent := [.cleanupStreaming name, .spawnAttempt cmd]
    match b1 with
    | .fileNotFound _ =>
      let binary := cmd.headD "unknown"
      ⟨false, s!"Binary '{binary}' not found", st1, evs⟩
    | .raised e => ⟨false, s!"Error starting process: {e}", st1, evs⟩
    | .ok dead stderrText pid =>
      let st2 := st1.setProc name ⟨pid, dead⟩
      if dead then
        let errMsg := if stderrText = "" then "Unknown error" else stderrText
        match fallback_command with
        | some (f :: fs) =>
          let r := ProcessManager.start_fallback st2 name (f :: fs) b2
          ⟨r.ok, r.msg, r.st, evs ++ r.events⟩
        | _ => ⟨false, s!"Process failed to start: {errMsg}", st2, evs⟩
      else
        ⟨true, s!"Process '{name}' started successfully",
         setup_streaming st2 name, evs ++ [.setupStreaming name]⟩

/-- What the OS does during `stop`'s signalling/waiting on a live process. -/
inductive StopBehavior where
  /-- SIGTERM delivered and the process exits within the graceful timeout. -/
  | graceful
  /-- `wait` raises TimeoutExpired; SIGKILL escalation follows (errors there
  are swallowed, so its own outcome does not matter). -/
  | timeoutThenKill
  /-- `getpgid`/`killpg`/`wait` raised a non-timeout exception with this
  text. -/
  | raised (etext : String)
deriving DecidableEq, Repr

/-- Outcome of `stop`. -/
structure StopResult where
  ok : Bool
  msg : String
  st : PMState
  events : List PMEvent
deriving DecidableEq, Repr

/-- `ProcessManager.stop`. -/
def ProcessManager.stop (st : PMState) (name : String) (b : StopBehavior) : StopResult :=
  match st.getProc name with
  | none => ⟨false, s!"Process '{name}' not found", st, []⟩
  | some p =>
    if p.dead then
      ⟨false, s!"Process '{name}' was not running",
       cleanup_streaming (st.removeProc name) name, [.cleanupStreaming name]⟩
    else
      match b with
      | .graceful =>
        ⟨true, s!"Process '{name}' stopped successfully",
         cleanup_streaming (st.removeProc name) name, [.cleanupStreaming name]⟩
      | .timeoutThenKill =>
        ⟨true, s!"Process '{name}' force stopped",
         cleanup_streaming (st.removeProc name) name, [.cleanupStreaming name]⟩
      | .raised e =>
        ⟨false, s!"Error stopping process: {e}", st, []⟩

/-- Whether `flag` occurs immediately followed by `value` in a command. -/
def containsPair (flag value : String) : List String → Bool
  | a :: b :: rest => (a == flag && b == value) || containsPair flag value (b :: rest)
  | _ => false

/-- A lowercase hex digit. -/
def isLowerHexDigit (c : Char) : Bool :=
  ('0' ≤ c && c ≤ '9') || ('a' ≤ c && c ≤ 'f')

/-! ## Supporting lemmas -/

@[simp] theorem updF_some {α : Type} (d : Option α) (v : α) : updF d (some v) = some v := rfl

@[simp] theorem updF_none {α : Type} (d : Option α) : updF d none = d := rfl

theorem lookup_filter_out {β : Type} (name : String) (l : List (String × β)) :
    List.lookup name (l.filter (fun kv => kv.1 != name)) = none := by
  induction l with
  | nil => rfl
  | cons kv t ih =>
    rw [List.filter_cons]
    by_cases h : kv.1 = name
    · simp [h, ih]
    · simp only [bne_iff_ne, ne_eq, h, not_false_eq_true, if_pos]
      rw [List.lookup]
      have hb : (name == kv.1) = false := by simp [Ne.symm h]
      simp [hb, ih]

@[simp] theorem getProc_setProc_self (st : PMState) (name : String) (p : Proc) :
    (st.setProc name p).getProc name = some p := by
  simp [PMState.getProc, PMState.setProc, List.lookup]

@[simp] theorem getProc_removeProc_self (st : PMState) (name : String) :
    (st.removeProc name).getProc name = none := by
  simp [PMState.getProc, PMState.removeProc, lookup_filter_out]

@[simp] theorem getProc_cleanup_streaming (st : PMState) (name n : String) :
    (cleanup_streaming st name).getProc n = st.getProc n := rfl

@[simp] theorem getProc_setup_streaming (st : PMState) (name n : String) :
    (setup_streaming st name).getProc n = st.getProc n := rfl

/-! ## C4: start on an already-running name -/

/-- C4: if `name` maps to a live (not yet exited) tracked process, `start`
fails with the already-running message, performs no side effect (state,
including the tracked handle and its pid, is unchanged; the trace is empty),
and does not replace the handle. -/
theorem start_already_running_frame (st : PMState) (name : String)
    (cmd : List String) (fb : Option (List String)) (b1 b2 : SpawnResult) (p : Proc)
    (hp : st.getProc name = some p) (hlive : p.dead = false) :
    (ProcessManager.start st name cmd fb b1 b2).ok = false ∧
    (ProcessManager.start st name cmd fb b1 b2).msg = s!"Process '{name}' is already running" ∧
    (ProcessManager.start st name cmd fb b1 b2).st = st ∧
    (ProcessManager.start st name cmd fb b1 b2).st.getProc name = some p ∧
    (ProcessManager.start st name cmd fb b1 b2).events = [] := by
  have hrun : ProcessManager.is_running st name = true := by
    simp [ProcessManager.is_running, hp, hlive]
  simp [ProcessManager.start, hrun, hp]

/-- Witness for C4 at a concrete state: a live pid-42 process named Kitchen. -/
theorem start_already_running_frame_witness :
    (ProcessManager.start ⟨[("Kitchen", ⟨42, false⟩)], [], [], []⟩ "Kitchen"
        ["squeezelite"] none (.ok false "" 7) (.ok false "" 8)).ok = false ∧
    (ProcessManager.start ⟨[("Kitchen", ⟨42, false⟩)], [], [], []⟩ "Kitchen"
        ["squeezelite"] none (.ok false "" 7) (.ok false "" 8)).st.getProc "Kitchen"
      = some ⟨42, false⟩ := by
  have h := start_already_running_frame ⟨[("Kitchen", ⟨42, false⟩)], [], [], []⟩
    "Kitchen" ["squeezelite"] none (.ok false "" 7) (.ok false "" 8) ⟨42, false⟩
    (by rfl) rfl
  exact ⟨h.1, h.2.2.2.1⟩

/-! ## C5: stop on an untracked or already-dead name -/

/-- C5: `stop` on an untracked name returns the not-found failure and changes
no state; `stop` on a tracked name whose process already exited reports it was
not running and removes the stale entry from the process table. -/
theorem stop_not_found_and_stale (st : PMState) (name : String) (b : StopBehavior) :
    (st.getProc name = none →
       ProcessManager.stop st name b = ⟨false, s!"Process '{name}' not found", st, []⟩) ∧
    (∀ p : Proc, st.getProc name = some p → p.dead = true →
       (ProcessManager.stop st name b).ok = false ∧
       (ProcessManager.stop st name b).msg = s!"Process '{name}' was not running" ∧
       (ProcessManager.stop st name b).st.getProc name = none) := by
  constructor
  · intro h
    simp [ProcessManager.stop, h]
  · intro p hp hd
    simp [ProcessManager.stop, hp, hd]

/-- Witness for C5: an empty table (not found) and a table with a dead entry
(stale removal). -/
theorem stop_not_found_and_stale_witness :
    ProcessManager.stop ⟨[], [], [], []⟩ "Kitchen" .graceful
      = ⟨false, "Process 'Kitchen' not found", ⟨[], [], [], []⟩, []⟩ ∧
    (ProcessManager.stop ⟨[("Kitchen", ⟨42, true⟩)], ["Kitchen"], [], []⟩ "Kitchen" .graceful).msg
      = "Process 'Kitchen' was not running" ∧
    (ProcessManager.stop ⟨[("Kitchen", ⟨42, true⟩)], ["Kitchen"], [], []⟩ "Kitchen" .graceful).st.getProc "Kitchen"
      = none := by
  have h1 := (stop_not_found_and_stale ⟨[], [], [], []⟩ "Kitchen" .graceful).1 (by rfl)
  have h2 := (stop_not_found_and_stale ⟨[("Kitchen", ⟨42, true⟩)], ["Kitchen"], [], []⟩
    "Kitchen" .graceful).2 ⟨42, true⟩ (by rfl) rfl
  exact ⟨h1, h2.2.1, h2.2.2⟩

/-! ## C1: streaming cleanup on the paths of stop -/

/-- C1 counterexample: on the path where signalling raises a non-timeout
exception, `stop` returns without running `_cleanup_streaming` at all — the
stop event, reader threads and log-file handle for the name survive — so the
cleanup does not happen "regardless of which path was taken". -/
theorem stop_cleanup_skipped_on_exception :
    (PMState.getProc ⟨[("p1", ⟨7, false⟩)], ["p1"], ["p1"], ["p1"]⟩ "p1").isSome = true ∧
    count_cleanup (ProcessManager.stop ⟨[("p1", ⟨7, false⟩)], ["p1"], ["p1"], ["p1"]⟩
      "p1" (.raised "simulated OSError")).events "p1" = 0 ∧
    (ProcessManager.stop ⟨[("p1", ⟨7, false⟩)], ["p1"], ["p1"], ["p1"]⟩
      "p1" (.raised "simulated OSError")).st.stop_events = ["p1"] := by
  exact ⟨rfl, rfl, rfl⟩

/-- C1 (amended): for every tracked entry, `stop` runs `_cleanup_streaming`
exactly once before returning on the already-dead, graceful-termination and
timeout-then-force-kill paths; on the path where a non-timeout exception is
raised while signalling/waiting it returns an error without any cleanup and
leaves the state unchanged. -/
theorem stop_cleanup_policy (st : PMState) (name : String) (b : StopBehavior) (p : Proc)
    (hp : st.getProc name = some p) :
    (p.dead = true → count_cleanup (ProcessManager.stop st name b).events name = 1) ∧
    (p.dead = false → b = .graceful ∨ b = .timeoutThenKill →
       count_cleanup (ProcessManager.stop st name b).events name = 1) ∧
    (p.dead = false → ∀ e, b = .raised e →
       count_cleanup (ProcessManager.stop st name b).events name = 0 ∧
       (ProcessManager.stop st name b).st = st) := by
  refine ⟨?_, ?_, ?_⟩
  · intro hd
    simp [ProcessManager.stop, hp, hd, count_cleanup, List.filter]
  · intro hd hb
    rcases hb with hb | hb <;>
      simp [ProcessManager.stop, hp, hd, hb, count_cleanup, List.filter]
  · intro hd e hb
    simp [ProcessManager.stop, hp, hd, hb, count_cleanup, List.filter]

/-- Witness for C1 (amended), exercising all four paths at concrete states. -/
theorem stop_cleanup_policy_witness :
    count_cleanup (ProcessManager.stop ⟨[("p", ⟨7, true⟩)], ["p"], ["p"], ["p"]⟩
      "p" .graceful).events "p" = 1 ∧
    count_cleanup (ProcessManager.stop ⟨[("p", ⟨7, false⟩)], ["p"], ["p"], ["p"]⟩
      "p" .graceful).events "p" = 1 ∧
    count_cleanup (ProcessManager.stop ⟨[("p", ⟨7, false⟩)], ["p"], ["p"], ["p"]⟩
      "p" .timeoutThenKill).events "p" = 1 ∧
    count_cleanup (ProcessManager.stop ⟨[("p", ⟨7, false⟩)], ["p"], ["p"], ["p"]⟩
      "p" (.raised "boom")).events "p" = 0 := by
  have h1 := stop_cleanup_policy ⟨[("p", ⟨7, true⟩)], ["p"], ["p"], ["p"]⟩ "p" .graceful
    ⟨7, true⟩ (by rfl)
  have h2 := stop_cleanup_policy ⟨[("p", ⟨7, false⟩)], ["p"], ["p"], ["p"]⟩ "p" .graceful
    ⟨7, false⟩ (by rfl)
  have h3 := stop_cleanup_policy ⟨[("p", ⟨7, false⟩)], ["p"], ["p"], ["p"]⟩ "p" .timeoutThenKill
    ⟨7, false⟩ (by rfl)
  have h4 := stop_cleanup_policy ⟨[("p", ⟨7, false⟩)], ["p"], ["p"], ["p"]⟩ "p" (.raised "boom")
    ⟨7, false⟩ (by rfl)
  exact ⟨h1.1 rfl, h2.2.1 rfl (Or.inl rfl), h3.2.1 rfl (Or.inr rfl),
    (h4.2.2 rfl "boom" rfl).1⟩

/-! ## C3: the fallback policy of start -/

/-- The distinct missing-binary message never coincides with the generic
spawn-error message (their first characters differ). -/
theorem binary_msg_ne_generic (b e : String) :
    "Binary '" ++ b ++ "' not found" ≠ "Error starting process: " ++ e ++ "" := by
  intro h
  have h2 := congrArg String.data h
  simp only [String.data_append] at h2
  simp at h2

/-! ## C9: reporting of missing-binary spawn failures -/

/-- C9 counterexample: in `_start_fallback` a FileNotFoundError is caught by
the generic `except Exception` handler, so its outcome message is the generic
fallback-error message — identical to the one produced for any other
exception with the same text — not a distinct missing-binary outcome. -/
theorem fallback_file_not_found_not_distinct :
    (ProcessManager.start_fallback ⟨[("p", ⟨3, true⟩)], [], [], []⟩ "p" ["nosuchbin"]
        (.fileNotFound "[Errno 2] No such file or directory: 'nosuchbin'")).msg
      = (ProcessManager.start_fallback ⟨[("p", ⟨3, true⟩)], [], [], []⟩ "p" ["nosuchbin"]
        (.raised "[Errno 2] No such file or directory: 'nosuchbin'")).msg ∧
    (ProcessManager.start_fallback ⟨[("p", ⟨3, true⟩)], [], [], []⟩ "p" ["nosuchbin"]
        (.fileNotFound "[Errno 2] No such file or directory: 'nosuchbin'")).msg
      = "Error starting fallback: [Errno 2] No such file or directory: 'nosuchbin'" := by
  exact ⟨rfl, rfl⟩

/-- C9 (amended): the primary spawn reports a missing binary with the distinct
message `Binary '<binary>' not found`, which differs from the generic
spawn-error outcome `Error starting process: <e>` for every binary and every
exception text; the fallback spawn has no distinct handler and reports
FileNotFoundError through the same generic `Error starting fallback: <e>`
message as any other exception. -/
theorem spawn_error_reporting (st st2 : PMState) (name binary : String)
    (cmd fcmd : List String) (fb : Option (List String)) (b2 : SpawnResult) (e : String)
    (hnr : ProcessManager.is_running st name = false)
    (hbin : cmd.headD "unknown" = binary) :
    (ProcessManager.start st name cmd fb (.fileNotFound e) b2).msg
      = s!"Binary '{binary}' not found" ∧
    (ProcessManager.start st name cmd fb (.raised e) b2).msg
      = s!"Error starting process: {e}" ∧
    (∀ b2e : String, s!"Binary '{b2e}' not found" ≠ s!"Error starting process: {e}") ∧
    (ProcessManager.start_fallback st2 name fcmd (.fileNotFound e)).msg
      = s!"Error starting fallback: {e}" ∧
    (ProcessManager.start_fallback st2 name fcmd (.raised e)).msg
      = s!"Error starting fallback: {e}" := by
  refine ⟨?_, ?_, ?_, rfl, rfl⟩
  · simp only [ProcessManager.start, hnr, Bool.false_eq_true, if_false]
    rw [← hbin]
  · simp [ProcessManager.start, hnr]
  · intro b2e h
    exact binary_msg_ne_generic b2e e h

/-- Witness for C9 (amended): concrete missing-binary and generic failures. -/
theorem spawn_error_reporting_witness :
    (ProcessManager.start ⟨[], [], [], []⟩ "Kitchen" ["nosuchbin", "-x"] none
        (.fileNotFound "[Errno 2] No such file or directory: 'nosuchbin'")
        (.ok false "" 1)).msg = "Binary 'nosuchbin' not found" ∧
    (ProcessManager.start_fallback ⟨[], [], [], []⟩ "Kitchen" ["nosuchbin"]
        (.fileNotFound "boom")).msg = "Error starting fallback: boom" := by
  have h := spawn_error_reporting ⟨[], [], [], []⟩ ⟨[], [], [], []⟩ "Kitchen" "nosuchbin"
    ["nosuchbin", "-x"] ["nosuchbin"] none (.ok false "" 1)
    "[Errno 2] No such file or directory: 'nosuchbin'" (by rfl) rfl
  have h2 := spawn_error_reporting ⟨[], [], [], []⟩ ⟨[], [], [], []⟩ "Kitchen" "nosuchbin"
    ["nosuchbin", "-x"] ["nosuchbin"] none (.ok false "" 1) "boom" (by rfl) rfl
  exact ⟨h.1, h2.2.2.2.1⟩

/-! ## C8: decoding policy of the log reader -/

/-- C8 counterexample: a line whose bytes are NOT well-formed UTF-8 (a strict
decode would fail) is not treated as end of stream: `errors="replace"` decodes
it with U+FFFD, the line is emitted to console and log file, and the reader
continues with the next line. -/
theorem stream_output_invalid_line_not_stream_end :
    utf8WellFormed [255, 104, 105] = false ∧
    (stream_output "[p]" true [.bytes [255, 104, 105], .bytes [111, 107]]).console
      = ["[p] �hi", "[p] ok"] ∧
    (stream_output "[p]" true [.bytes [255, 104, 105], .bytes [111, 107]]).fileWrites
      = ["�hi\n", "ok\n"] := by
  exact ⟨rfl, rfl, rfl⟩

/-- C8 (amended): a bytes line never ends the stream — decoding with
`errors="replace"` cannot fail, the decoded line is emitted when non-empty
after rstrip, and the remaining lines are still processed (the rest's console
output is a suffix of the whole output); only a non-bytes readline result
(AttributeError/TypeError at `.decode`, e.g. a test mock) is treated as end
of stream, silently truncating the remainder. -/
theorem stream_output_decode_policy (pfx : String) (hasLog : Bool)
    (bs : List Nat) (rest : List StreamItem) (hbs : bs ≠ []) :
    ((stream_output pfx hasLog rest).console
       <:+ (stream_output pfx hasLog (.bytes bs :: rest)).console) ∧
    (pyRstrip (pyDecodeReplace bs) ≠ "" →
       (stream_output pfx hasLog (.bytes bs :: rest)).console
         = (pfx ++ " " ++ pyRstrip (pyDecodeReplace bs))
             :: (stream_output pfx hasLog rest).console) ∧
    stream_output pfx hasLog (.nonBytes :: rest) = ⟨[], []⟩ := by
  have hbe : bs.isEmpty = false := by
    cases bs with
    | nil => exact absurd rfl hbs
    | cons b t => rfl
  refine ⟨?_, ?_, rfl⟩
  · rw [stream_output, hbe]
    by_cases hd : pyRstrip (pyDecodeReplace bs) = ""
    · simp [hd]
    · simp only [Bool.false_eq_true, if_false, hd, if_neg]
      exact List.suffix_cons _ _
  · intro hd
    rw [stream_output, hbe]
    simp [hd]

/-- Witness for C8 (amended), at an invalid-UTF-8 line followed by a valid
one. -/
theorem stream_output_decode_policy_witness :
    (stream_output "[p]" true [.bytes [255, 104, 105], .bytes [111, 107]]).console
      = ("[p]" ++ " " ++ pyRstrip (pyDecodeReplace [255, 104, 105]))
          :: (stream_output "[p]" true [.bytes [111, 107]]).console := by
  have h := stream_output_decode_policy "[p]" true [255, 104, 105]
    [.bytes [111, 107]] (by simp)
  exact h.2.1 (by decide)

/-! ## C2: device-selection flags in build_command -/

theorem containsPair_cons (flag value a : String) (l : List String)
    (h : containsPair flag value l = true) :
    containsPair flag value (a :: l) = true := by
  cases l with
  | nil => simp [containsPair] at h
  | cons b t =>
    rw [containsPair]
    simp [h]

theorem containsPair_append_here (flag value : String) (pre suf : List String) :
    containsPair flag value (pre ++ flag :: value :: suf) = true := by
  induction pre with
  | nil => simp [containsPair]
  | cons a t ih => exact containsPair_cons flag value a _ ih

/-- `_generate_client_id` output starts with "sendspin", so it is never the
`--audio-device` token. -/
theorem generate_client_id_ne_flag (n : String) :
    generate_client_id n ≠ "--audio-device" := by
  intro h
  have h2 := congrArg String.data h
  rw [generate_client_id] at h2
  simp only [String.data_append] at h2
  simp at h2

/-- No value token of a snapclient command built without a device part is the
`--soundcard` flag. -/
theorem snapcast_omit_tail (cfg : Config) (backend : String)
    (hip : cfg.server_ip ≠ some "--soundcard") (hhost : cfg.host_id ≠ some "--soundcard")
    (hlat : toString (cfg.latency.getD 0) ≠ "--soundcard")
    (hback : backend ≠ "--soundcard") :
    ¬ "--soundcard" ∈ ["snapclient"]
        ++ (match cfg.server_ip with
            | some ip => if ip ≠ "" then ["--host", ip] else []
            | none => [])
        ++ (match cfg.host_id with
            | some h => if h ≠ "" then ["--hostID", h] else []
            | none => [])
        ++ (if cfg.latency.getD 0 ≠ 0 then ["--latency", toString (cfg.latency.getD 0)] else [])
        ++ ["--player", backend] ++ ["--logsink", "stderr"] := by
  cases hsv : cfg.server_ip with
  | none =>
    cases hhid : cfg.host_id with
    | none =>
      split_ifs <;>
        simp_all [List.mem_append, eq_comm]
    | some hid =>
      have hhid2 : hid ≠ "--soundcard" := fun he => hhost (by rw [hhid, he])
      split_ifs <;>
        simp_all [List.mem_append, eq_comm]
  | some ip =>
    have hip2 : ip ≠ "--soundcard" := fun he => hip (by rw [hsv, he])
    cases hhid : cfg.host_id with
    | none =>
      split_ifs <;>
        simp_all [List.mem_append, eq_comm]
    | some hid =>
      have hhid2 : hid ≠ "--soundcard" := fun he => hhost (by rw [hhid, he])
      split_ifs <;>
        simp_all [List.mem_append, eq_comm]

/-- No value token of a sendspin command built without a device part is the
`--audio-device` flag. -/
theorem sendspin_omit_tail (cfg : Config) (name : String)
    (hn : name ≠ "--audio-device") (hcid : cfg.client_id ≠ some "--audio-device")
    (hll : cfg.log_level ≠ some "--audio-device")
    (hdelay : toString (cfg.delay_ms.getD 0) ≠ "--audio-device") :
    ¬ "--audio-device" ∈ ["sendspin", "--headless", "--name", name, "--id",
          cfg.client_id.getD (generate_client_id name)]
        ++ (match cfg.delay_ms with
            | some d => if d ≠ 0 then ["--static-delay-ms", toString d] else []
            | none => [])
        ++ ["--log-level", cfg.log_level.getD "INFO"] := by
  have hn2 : name ≠ "--audio-device" := hn
  cases hc : cfg.client_id with
  | none =>
    have hgen := generate_client_id_ne_flag name
    cases hd : cfg.delay_ms with
    | none =>
      cases hl : cfg.log_level with
      | none => simp_all [List.mem_append, eq_comm]
      | some ll =>
        have hll2 : ll ≠ "--audio-device" := fun he => hll (by rw [hl, he])
        simp_all [List.mem_append, eq_comm]
    | some d =>
      have hdl2 : toString d ≠ "--audio-device" := by
        rw [hd] at hdelay
        simpa using hdelay
      cases hl : cfg.log_level with
      | none =>
        rcases eq_or_ne d 0 with hdz | hdz <;> simp_all [List.mem_append, eq_comm]
      | some ll =>
        have hll2 : ll ≠ "--audio-device" := fun he => hll (by rw [hl, he])
        rcases eq_or_ne d 0 with hdz | hdz <;> simp_all [List.mem_append, eq_comm]
  | some cid =>
    have hcid2 : cid ≠ "--audio-device" := fun he => hcid (by rw [hc, he])
    cases hd : cfg.delay_ms with
    | none =>
      cases hl : cfg.log_level with
      | none => simp_all [List.mem_append, eq_comm]
      | some ll =>
        have hll2 : ll ≠ "--audio-device" := fun he => hll (by rw [hl, he])
        simp_all [List.mem_append, eq_comm]
    | some d =>
      have hdl2 : toString d ≠ "--audio-device" := by
        rw [hd] at hdelay
        simpa using hdelay
      cases hl : cfg.log_level with
      | none =>
        rcases eq_or_ne d 0 with hdz | hdz <;> simp_all [List.mem_append, eq_comm]
      | some ll =>
        have hll2 : ll ≠ "--audio-device" := fun he => hll (by rw [hl, he])
        rcases eq_or_ne d 0 with hdz | hdz <;> simp_all [List.mem_append, eq_comm]

/-- C2 counterexample: the claim fails in both directions.  For sendspin, the
claim's own example — device `hw:1,0` — produces a command with NO device flag
at all (ALSA-style names are skipped); for squeezelite, a config with device
`"default"` still gets the `-o` flag (it is passed unconditionally). -/
theorem build_command_device_flag_counterexample :
    sendspin_build_command
        { name := some "Kitchen", device := some "hw:1,0", client_id := some "kid" }
      = some ["sendspin", "--headless", "--name", "Kitchen", "--id", "kid",
              "--log-level", "INFO"] ∧
    squeezelite_build_command ⟨fun d => d, "80", "500:2000", "5", "44100"⟩
        { name := some "K", device := some "default", mac_address := some "aa:bb:cc:dd:ee:ff" }
      = some ["squeezelite", "-n", "K", "-o", "default", "-m", "aa:bb:cc:dd:ee:ff",
              "-a", "80", "-b", "500:2000", "-C", "5"] := by
  exact ⟨rfl, rfl⟩

/-- C2 (amended): snapcast omits `--soundcard` when the device is absent,
empty or `"default"` and otherwise includes it immediately followed by the
device; sendspin omits `--audio-device` when the device is absent, empty,
`"default"`, `"null"`, ALSA-style (`hw:`/`plughw:` prefix) or a PulseAudio
sink name (`alsa_output.`/`alsa_input.` prefix), and otherwise includes it
immediately followed by the device; squeezelite always passes `-o` followed
by the environment-translated device, even for `"default"`.  (The flag-token
disequality hypotheses rule out configs whose field VALUES collide with the
flag token itself.) -/
theorem build_command_device_flags (cfg : Config) (backend : String)
    (env : SqueezeliteEnv) (name device mac : String) :
    (cfg.device = some device → device ≠ "" → device ≠ "default" →
       containsPair "--soundcard" device (snapcast_build_command backend cfg) = true) ∧
    ((cfg.device = none ∨ cfg.device = some "" ∨ cfg.device = some "default") →
       cfg.server_ip ≠ some "--soundcard" → cfg.host_id ≠ some "--soundcard" →
       toString (cfg.latency.getD 0) ≠ "--soundcard" → backend ≠ "--soundcard" →
       ¬ "--soundcard" ∈ snapcast_build_command backend cfg) ∧
    (cfg.name = some name → cfg.device = some device →
       device ≠ "" → device ≠ "default" → device ≠ "null" →
       pyStartsWith device "hw:" = false → pyStartsWith device "plughw:" = false →
       pyStartsWith device "alsa_output." = false → pyStartsWith device "alsa_input." = false →
       ∀ cl, sendspin_build_command cfg = some cl →
         containsPair "--audio-device" device cl = true) ∧
    (cfg.name = some name →
       (cfg.device = none ∨ ∃ d, cfg.device = some d ∧
          (d = "" ∨ d = "default" ∨ d = "null" ∨
           pyStartsWith d "hw:" = true ∨ pyStartsWith d "plughw:" = true ∨
           pyStartsWith d "alsa_output." = true ∨ pyStartsWith d "alsa_input." = true)) →
       name ≠ "--audio-device" → cfg.client_id ≠ some "--audio-device" →
       cfg.log_level ≠ some "--audio-device" →
       toString (cfg.delay_ms.getD 0) ≠ "--audio-device" →
       ∀ cl, sendspin_build_command cfg = some cl →
         ¬ "--audio-device" ∈ cl) ∧
    (cfg.name = some name → cfg.device = some device → cfg.mac_address = some mac →
       ∀ cl, squeezelite_build_command env cfg = some cl →
         containsPair "-o" (env.outputDevice device) cl = true) := by
  refine ⟨?_, ?_, ?_, ?_, ?_⟩
  · -- snapcast, include direction
    intro hdev h1 h2
    rw [snapcast_build_command, hdev]
    simp only [Option.getD_some, ne_eq, h1, h2, not_false_eq_true, and_self, if_true, if_pos]
    rw [show ∀ x : List String, ["snapclient"] ++ x = "snapclient" :: x from fun x => rfl]
    apply containsPair_cons
    have := containsPair_append_here "--soundcard" device
      (match cfg.server_ip with
       | some ip => if ip ≠ "" then ["--host", ip] else []
       | none => ([] : List String))
    simpa [List.append_assoc] using this _
  · -- snapcast, omit direction
    intro hdev hip hhost hlat hback
    have hdev2 : cfg.device.getD "default" = "" ∨ cfg.device.getD "default" = "default" := by
      rcases hdev with h | h | h <;> simp [h]
    rcases hdev2 with h | h
    all_goals
      rw [snapcast_build_command, h]
      simp only [ne_eq, not_true_eq_false, not_false_eq_true, if_false, and_false,
        false_and, if_neg, List.append_nil, List.nil_append]
      exact snapcast_omit_tail cfg backend hip hhost hlat hback
  · -- sendspin, include direction
    intro hname hdev h1 h2 h3 hhw hplug hao hai cl hcl
    rw [sendspin_build_command, hname, hdev] at hcl
    simp only [Option.getD_some, ne_eq, h1, h2, h3, not_false_eq_true, and_self,
      if_true, if_pos, hhw, hplug, hao, hai, Bool.or_self, Bool.false_eq_true,
      if_false, Option.some.injEq] at hcl
    subst hcl
    have := containsPair_append_here "--audio-device" device
      ["sendspin", "--headless", "--name", name, "--id",
        cfg.client_id.getD (generate_client_id name)]
    simpa [List.append_assoc] using this _
  · -- sendspin, omit direction
    intro hname hdev hn hcid hll hdelay cl hcl
    rcases hdev with h0 | ⟨d, hd, hdisj⟩
    · have hdev2 : cfg.device.getD "default" = "default" := by simp [h0]
      rw [sendspin_build_command, hname, hdev2] at hcl
      simp only [ne_eq, not_true_eq_false, if_false, and_false, false_and, if_neg,
        not_false_eq_true, Option.some.injEq, List.nil_append, List.append_nil] at hcl
      subst hcl
      exact sendspin_omit_tail cfg name hn hcid hll hdelay
    · have hdp : (if d ≠ "" ∧ d ≠ "default" ∧ d ≠ "null" then
            if pyStartsWith d "hw:" || pyStartsWith d "plughw:" then []
            else if pyStartsWith d "alsa_output." || pyStartsWith d "alsa_input." then []
            else ["--audio-device", d]
          else ([] : List String)) = [] := by
        rcases hdisj with h | h | h | h | h | h | h <;> simp [h]
      rw [sendspin_build_command, hname, hd] at hcl
      simp only [Option.getD_some] at hcl
      rw [hdp] at hcl
      simp only [Option.some.injEq, List.append_nil, List.nil_append] at hcl
      subst hcl
      exact sendspin_omit_tail cfg name hn hcid hll hdelay
  · -- squeezelite: -o is always present
    intro hname hdev hmac cl hcl
    rw [squeezelite_build_command, hname, hdev, hmac] at hcl
    simp only [Option.some.injEq] at hcl
    subst hcl
    have := containsPair_append_here "-o" (env.outputDevice device)
      ["squeezelite", "-n", name]
    simpa [List.append_assoc] using this _

/-- Witness for C2 (amended): concrete configs exercising the include
direction and every omit case — `"default"` and empty for snapcast;
`"default"`, ALSA-style `hw:1,0` and `"null"` for sendspin — plus
squeezelite's unconditional `-o`. -/
theorem build_command_device_flags_witness :
    containsPair "--soundcard" "hw:1,0"
      (snapcast_build_command "alsa" { name := some "K", device := some "hw:1,0" }) = true ∧
    ¬ "--soundcard" ∈ snapcast_build_command "alsa" { name := some "K", device := some "default" } ∧
    ¬ "--soundcard" ∈ snapcast_build_command "alsa" { name := some "K", device := some "" } ∧
    (∀ cl, sendspin_build_command { name := some "K", device := some "1", client_id := some "kid" }
        = some cl → containsPair "--audio-device" "1" cl = true) ∧
    (∀ cl, sendspin_build_command { name := some "K", device := some "default", client_id := some "kid" }
        = some cl → ¬ "--audio-device" ∈ cl) ∧
    (∀ cl, sendspin_build_command { name := some "K", device := some "hw:1,0", client_id := some "kid" }
        = some cl → ¬ "--audio-device" ∈ cl) ∧
    (∀ cl, sendspin_build_command { name := some "K", device := some "null", client_id := some "kid" }
        = some cl → ¬ "--audio-device" ∈ cl) ∧
    (∀ cl, squeezelite_build_command ⟨fun d => d, "80", "500:2000", "5", "44100"⟩
        { name := some "K", device := some "default", mac_address := some "m" }
        = some cl → containsPair "-o" "default" cl = true) := by
  have h1 := build_command_device_flags { name := some "K", device := some "hw:1,0" }
    "alsa" ⟨fun d => d, "80", "500:2000", "5", "44100"⟩ "K" "hw:1,0" "m"
  have h2 := build_command_device_flags { name := some "K", device := some "default" }
    "alsa" ⟨fun d => d, "80", "500:2000", "5", "44100"⟩ "K" "default" "m"
  have h2e := build_command_device_flags { name := some "K", device := some "" }
    "alsa" ⟨fun d => d, "80", "500:2000", "5", "44100"⟩ "K" "" "m"
  have h3 := build_command_device_flags { name := some "K", device := some "1", client_id := some "kid" }
    "alsa" ⟨fun d => d, "80", "500:2000", "5", "44100"⟩ "K" "1" "m"
  have h3d := build_command_device_flags { name := some "K", device := some "default", client_id := some "kid" }
    "alsa" ⟨fun d => d, "80", "500:2000", "5", "44100"⟩ "K" "default" "m"
  have h3h := build_command_device_flags { name := some "K", device := some "hw:1,0", client_id := some "kid" }
    "alsa" ⟨fun d => d, "80", "500:2000", "5", "44100"⟩ "K" "hw:1,0" "m"
  have h3n := build_command_device_flags { name := some "K", device := some "null", client_id := some "kid" }
    "alsa" ⟨fun d => d, "80", "500:2000", "5", "44100"⟩ "K" "null" "m"
  have h4 := build_command_device_flags { name := some "K", device := some "default", mac_address := some "m" }
    "alsa" ⟨fun d => d, "80", "500:2000", "5", "44100"⟩ "K" "default" "m"
  refine ⟨h1.1 rfl (by decide) (by decide), ?_, ?_, ?_, ?_, ?_, ?_, ?_⟩
  · exact h2.2.1 (Or.inr (Or.inr rfl)) (by simp) (by simp) (by decide) (by decide)
  · exact h2e.2.1 (Or.inr (Or.inl rfl)) (by simp) (by simp) (by decide) (by decide)
  · exact h3.2.2.1 rfl rfl (by decide) (by decide) (by decide) (by decide) (by decide)
      (by decide) (by decide)
  · exact h3d.2.2.2.1 rfl (Or.inr ⟨"default", rfl, Or.inr (Or.inl rfl)⟩)
      (by decide) (by decide) (by simp) (by decide)
  · exact h3h.2.2.2.1 rfl (Or.inr ⟨"hw:1,0", rfl, Or.inr (Or.inr (Or.inr (Or.inl (by decide))))⟩)
      (by decide) (by decide) (by simp) (by decide)
  · exact h3n.2.2.2.1 rfl (Or.inr ⟨"null", rfl, Or.inr (Or.inr (Or.inl rfl))⟩)
      (by decide) (by decide) (by simp) (by decide)
  · exact h4.2.2.2.2 rfl rfl rfl

/-! ## C6: deterministic MAC address generation -/

theorem md5_as_digest (msg : List Nat) : ∃ a b c d, md5 msg = digest_bytes a b c d :=
  ⟨_, _, _, _, rfl⟩

/-- Setting bit 1 and clearing bit 0 of a byte gives a byte whose
locally-administered bit is set and whose multicast bit is clear. -/
theorem first_octet_bits : ∀ y < 256,
    ((y ||| 2) &&& 254) &&& 2 = 2 ∧ ((y ||| 2) &&& 254) &&& 1 = 0 := by decide

theorem toHex2_octet : ∀ b < 256,
    (toHex2 b).length = 2 ∧ (toHex2 b).data.all isLowerHexDigit = true := by decide

/-- Structure of a generated MAC: six bytes below 256, the first with the
locally-administered bit set and the multicast bit clear, rendered as six
colon-separated `toHex2` octets. -/
theorem macBytes_structure (name : String) :
    ∃ b0 b1 b2 b3 b4 b5 : Nat,
      macBytes name = [b0, b1, b2, b3, b4, b5] ∧
      (b0 < 256 ∧ b1 < 256 ∧ b2 < 256 ∧ b3 < 256 ∧ b4 < 256 ∧ b5 < 256) ∧
      generate_mac_address name = toHex2 b0 ++ ":" ++ toHex2 b1 ++ ":" ++ toHex2 b2
        ++ ":" ++ toHex2 b3 ++ ":" ++ toHex2 b4 ++ ":" ++ toHex2 b5 ∧
      b0 &&& 2 = 2 ∧ b0 &&& 1 = 0 := by
  obtain ⟨a, b, c, d, h⟩ := md5_as_digest (utf8Bytes name)
  have hm : macBytes name = [((a % 256) ||| 2) &&& 254, a / 256 % 256,
      a / 65536 % 256, a / 16777216 % 256, b % 256, b / 256 % 256] := by
    rw [macBytes, h]
    rfl
  have hbits := first_octet_bits (a % 256) (Nat.mod_lt a (by norm_num))
  refine ⟨((a % 256) ||| 2) &&& 254, a / 256 % 256, a / 65536 % 256,
    a / 16777216 % 256, b % 256, b / 256 % 256, hm,
    ⟨?_, Nat.mod_lt _ (by norm_num), Nat.mod_lt _ (by norm_num),
      Nat.mod_lt _ (by norm_num), Nat.mod_lt _ (by norm_num),
      Nat.mod_lt _ (by norm_num)⟩, ?_, hbits.1, hbits.2⟩
  · exact lt_of_le_of_lt (Nat.and_le_right) (by norm_num)
  · rw [generate_mac_address, hm]
    rfl

/-- C6: `generate_mac_address` is deterministic (it is a pure function of the
name), always yields six colon-separated lowercase two-hex-digit octets, its
first octet has the locally-administered bit (0x02) set and the multicast bit
(0x01) clear, and the distinct names "Kitchen" and "Bedroom" yield distinct
addresses. -/
theorem generate_mac_address_spec :
    (∀ name : String, generate_mac_address name = generate_mac_address name) ∧
    (∀ name : String, ∃ b0 b1 b2 b3 b4 b5 : Nat,
      macBytes name = [b0, b1, b2, b3, b4, b5] ∧
      (b0 < 256 ∧ b1 < 256 ∧ b2 < 256 ∧ b3 < 256 ∧ b4 < 256 ∧ b5 < 256) ∧
      generate_mac_address name = toHex2 b0 ++ ":" ++ toHex2 b1 ++ ":" ++ toHex2 b2
        ++ ":" ++ toHex2 b3 ++ ":" ++ toHex2 b4 ++ ":" ++ toHex2 b5 ∧
      b0 &&& 2 = 2 ∧ b0 &&& 1 = 0) ∧
    (∀ b < 256, (toHex2 b).length = 2 ∧ (toHex2 b).data.all isLowerHexDigit = true) ∧
    generate_mac_address "Kitchen" ≠ generate_mac_address "Bedroom" := by
  refine ⟨fun _ => rfl, macBytes_structure, toHex2_octet, ?_⟩
  decide

/-- Witness for C6: the octet-format component applied at byte 255, and the
concrete Kitchen MAC. -/
theorem generate_mac_address_spec_witness :
    ((toHex2 255).length = 2 ∧ (toHex2 255).data.all isLowerHexDigit = true) ∧
    generate_mac_address "Kitchen" = "32:fa:00:a6:6f:2e" := by
  exact ⟨generate_mac_address_spec.2.2.1 255 (by decide), by decide⟩

/-! ## C7: prepare_config — defaults under user values, derived identifiers -/

theorem updF_none_d {α : Type} (u : Option α) : updF none u = u := by
  cases u <;> rfl

theorem updF_of_isSome {α : Type} (d u : Option α) (h : u.isSome = true) :
    updF d u = u := by
  cases u
  · simp at h
  · rfl

theorem updF_some_isSome {α : Type} (x : α) (u : Option α) :
    (updF (some x) u).isSome = true := by
  cases u <;> rfl

theorem isEmpty_false_of_ne {s : String} (h : s ≠ "") : s.isEmpty = false := by
  rw [Bool.eq_false_iff]
  intro he
  exact h ((String.isEmpty_iff s).mp he)

@[simp] theorem blankS_none : blankS none = true := rfl

@[simp] theorem blankS_some_empty : blankS (some "") = true := rfl

theorem blankS_some_ne {s : String} (h : s ≠ "") : blankS (some s) = false := by
  simp [blankS, isEmpty_false_of_ne h]

theorem truthyS_some_ne {s : String} (h : s ≠ "") : truthyS (some s) = true := by
  simp [truthyS, isEmpty_false_of_ne h]

theorem blankS_iff (o : Option String) : blankS o = true ↔ o = none ∨ o = some "" := by
  cases o with
  | none => simp
  | some s =>
    constructor
    · intro h
      right
      simp only [blankS, Option.getD_some] at h
      exact congrArg some ((String.isEmpty_iff s).mp h)
    · intro h
      rcases h with h | h
      · exact absurd h (by simp)
      · rw [(Option.some.injEq _ _).mp h]
        rfl

/-- C7: for all three providers, `prepare_config` merges the provider's
defaults under the user config — a user-supplied value wins for every key
(for the derived-identifier key, whenever it is non-empty) — so a config
lacking volume or autostart comes back with `volume = 75` / `autostart =
false`, and a config lacking (absent or empty) the provider's derived
identifier but having a non-empty name comes back with the identifier
generated from that name. -/
theorem prepare_config_spec :
    (∀ cfg : Config, cfg.volume = none →
       (squeezelite_prepare_config cfg).volume = some 75 ∧
       (sendspin_prepare_config cfg).volume = some 75 ∧
       (snapcast_prepare_config cfg).volume = some 75) ∧
    (∀ cfg : Config, cfg.autostart = none →
       (squeezelite_prepare_config cfg).autostart = some false ∧
       (sendspin_prepare_config cfg).autostart = some false ∧
       (snapcast_prepare_config cfg).autostart = some false) ∧
    (∀ cfg : Config, ∀ v : Int, cfg.volume = some v →
       (squeezelite_prepare_config cfg).volume = some v ∧
       (sendspin_prepare_config cfg).volume = some v ∧
       (snapcast_prepare_config cfg).volume = some v) ∧
    (∀ cfg : Config, ∀ bv : Bool, cfg.autostart = some bv →
       (squeezelite_prepare_config cfg).autostart = some bv ∧
       (sendspin_prepare_config cfg).autostart = some bv ∧
       (snapcast_prepare_config cfg).autostart = some bv) ∧
    (∀ cfg : Config, ∀ s : String, cfg.device = some s →
       (squeezelite_prepare_config cfg).device = some s ∧
       (sendspin_prepare_config cfg).device = some s ∧
       (snapcast_prepare_config cfg).device = some s) ∧
    (∀ cfg : Config, ∀ s : String, cfg.name = some s →
       (squeezelite_prepare_config cfg).name = some s ∧
       (sendspin_prepare_config cfg).name = some s ∧
       (snapcast_prepare_config cfg).name = some s) ∧
    (∀ cfg : Config, ∀ s : String, s ≠ "" →
       (cfg.mac_address = some s → (squeezelite_prepare_config cfg).mac_address = some s) ∧
       (cfg.client_id = some s → (sendspin_prepare_config cfg).client_id = some s) ∧
       (cfg.host_id = some s → (snapcast_prepare_config cfg).host_id = some s)) ∧
    (∀ cfg : Config, ∀ n : String, cfg.name = some n → n ≠ "" →
       (blankS cfg.mac_address = true →
          (squeezelite_prepare_config cfg).mac_address = some (generate_mac_address n)) ∧
       (blankS cfg.client_id = true →
          (sendspin_prepare_config cfg).client_id = some (generate_client_id n)) ∧
       (blankS cfg.host_id = true →
          (snapcast_prepare_config cfg).host_id = some (generate_host_id n))) := by
  refine ⟨?_, ?_, ?_, ?_, ?_, ?_, ?_, ?_⟩
  · intro cfg h
    refine ⟨?_, ?_, ?_⟩ <;>
      · simp only [squeezelite_prepare_config, sendspin_prepare_config,
          snapcast_prepare_config]
        split <;> simp [dictUpdate, h, squeezelite_default_config, sendspin_default_config, snapcast_default_config]
  · intro cfg h
    refine ⟨?_, ?_, ?_⟩ <;>
      · simp only [squeezelite_prepare_config, sendspin_prepare_config,
          snapcast_prepare_config]
        split <;> simp [dictUpdate, h, squeezelite_default_config, sendspin_default_config, snapcast_default_config]
  · intro cfg v h
    refine ⟨?_, ?_, ?_⟩ <;>
      · simp only [squeezelite_prepare_config, sendspin_prepare_config,
          snapcast_prepare_config]
        split <;> simp [dictUpdate, h, squeezelite_default_config, sendspin_default_config, snapcast_default_config]
  · intro cfg bv h
    refine ⟨?_, ?_, ?_⟩ <;>
      · simp only [squeezelite_prepare_config, sendspin_prepare_config,
          snapcast_prepare_config]
        split <;> simp [dictUpdate, h, squeezelite_default_config, sendspin_default_config, snapcast_default_config]
  · intro cfg s h
    refine ⟨?_, ?_, ?_⟩ <;>
      · simp only [squeezelite_prepare_config, sendspin_prepare_config,
          snapcast_prepare_config]
        split <;> simp [dictUpdate, h, squeezelite_default_config, sendspin_default_config, snapcast_default_config]
  · intro cfg s h
    refine ⟨?_, ?_, ?_⟩ <;>
      · simp only [squeezelite_prepare_config, sendspin_prepare_config,
          snapcast_prepare_config]
        split <;> simp [dictUpdate, h, squeezelite_default_config, sendspin_default_config, snapcast_default_config]
  · intro cfg s hs
    refine ⟨?_, ?_, ?_⟩ <;> intro h
    · simp [squeezelite_prepare_config, dictUpdate, h, blankS_some_ne hs, squeezelite_default_config]
    · simp [sendspin_prepare_config, dictUpdate, h, blankS_some_ne hs, sendspin_default_config]
    · simp [snapcast_prepare_config, dictUpdate, h, blankS_some_ne hs, snapcast_default_config]
  · intro cfg n hn hne
    refine ⟨?_, ?_, ?_⟩ <;> intro h
    · rcases (blankS_iff _).mp h with h2 | h2 <;>
        simp [squeezelite_prepare_config, dictUpdate, hn, h2, truthyS_some_ne hne, squeezelite_default_config]
    · rcases (blankS_iff _).mp h with h2 | h2 <;>
        simp [sendspin_prepare_config, dictUpdate, hn, h2, truthyS_some_ne hne, sendspin_default_config]
    · rcases (blankS_iff _).mp h with h2 | h2 <;>
        simp [snapcast_prepare_config, dictUpdate, hn, h2, truthyS_some_ne hne, snapcast_default_config]

/-- Witness for C7: the spec's own scenario — a config with only a name and a
device comes back with volume 75, autostart false, and a generated
identifier. -/
theorem prepare_config_spec_witness :
    (squeezelite_prepare_config { name := some "Kitchen", device := some "hw:1,0" }).volume
      = some 75 ∧
    (squeezelite_prepare_config { name := some "Kitchen", device := some "hw:1,0" }).autostart
      = some false ∧
    (squeezelite_prepare_config { name := some "Kitchen", device := some "hw:1,0" }).device
      = some "hw:1,0" ∧
    (squeezelite_prepare_config { name := some "Kitchen", device := some "hw:1,0" }).mac_address
      = some (generate_mac_address "Kitchen") := by
  have h := prepare_config_spec
  refine ⟨(h.1 _ rfl).1, (h.2.1 _ rfl).1, (h.2.2.2.2.1 _ "hw:1,0" rfl).1, ?_⟩
  exact ((h.2.2.2.2.2.2.2 _ "Kitchen" rfl (by decide)).1 rfl)

/-! ## C10: idempotence of prepare_config -/

theorem isSome_of_blankS_false (o : Option String) (h : blankS o = false) :
    o.isSome = true := by
  cases o
  · exact absurd h (by decide)
  · rfl

theorem generate_mac_address_ne_empty (name : String) : generate_mac_address name ≠ "" := by
  obtain ⟨b0, b1, b2, b3, b4, b5, hm, hb, hs, h1, h2⟩ := macBytes_structure name
  rw [hs]
  intro h
  have h3 := congrArg String.data h
  simp only [String.data_append, toHex2] at h3
  simp at h3

theorem generate_client_id_ne_empty (n : String) : generate_client_id n ≠ "" := by
  intro h
  have h2 := congrArg String.data h
  rw [generate_client_id] at h2
  simp only [String.data_append] at h2
  simp at h2

theorem generate_host_id_ne_empty (n : String) : generate_host_id n ≠ "" := by
  intro h
  have h2 := congrArg String.data h
  rw [generate_host_id] at h2
  simp only [String.data_append] at h2
  simp at h2

theorem dictUpdate_squeezelite_id (s : Config)
    (h1 : s.provider.isSome = true) (h2 : s.device.isSome = true)
    (h3 : s.server_ip.isSome = true) (h4 : s.mac_address.isSome = true)
    (h5 : s.volume.isSome = true) (h6 : s.autostart.isSome = true) :
    dictUpdate squeezelite_default_config s = s := by
  apply Config.ext
  · exact updF_none_d _
  · exact updF_of_isSome _ _ h1
  · exact updF_of_isSome _ _ h2
  · exact updF_of_isSome _ _ h3
  · exact updF_of_isSome _ _ h4
  · exact updF_none_d _
  · exact updF_none_d _
  · exact updF_none_d _
  · exact updF_none_d _
  · exact updF_none_d _
  · exact updF_of_isSome _ _ h5
  · exact updF_of_isSome _ _ h6
  · rfl

theorem dictUpdate_sendspin_id (s : Config)
    (h1 : s.provider.isSome = true) (h2 : s.device.isSome = true)
    (h3 : s.client_id.isSome = true) (h4 : s.delay_ms.isSome = true)
    (h5 : s.log_level.isSome = true) (h6 : s.volume.isSome = true)
    (h7 : s.autostart.isSome = true) :
    dictUpdate sendspin_default_config s = s := by
  apply Config.ext
  · exact updF_none_d _
  · exact updF_of_isSome _ _ h1
  · exact updF_of_isSome _ _ h2
  · exact updF_none_d _
  · exact updF_none_d _
  · exact updF_of_isSome _ _ h3
  · exact updF_none_d _
  · exact updF_of_isSome _ _ h4
  · exact updF_none_d _
  · exact updF_of_isSome _ _ h5
  · exact updF_of_isSome _ _ h6
  · exact updF_of_isSome _ _ h7
  · rfl

theorem dictUpdate_snapcast_id (s : Config)
    (h1 : s.provider.isSome = true) (h2 : s.device.isSome = true)
    (h3 : s.server_ip.isSome = true) (h4 : s.host_id.isSome = true)
    (h5 : s.latency.isSome = true) (h6 : s.volume.isSome = true)
    (h7 : s.autostart.isSome = true) :
    dictUpdate snapcast_default_config s = s := by
  apply Config.ext
  · exact updF_none_d _
  · exact updF_of_isSome _ _ h1
  · exact updF_of_isSome _ _ h2
  · exact updF_of_isSome _ _ h3
  · exact updF_none_d _
  · exact updF_none_d _
  · exact updF_of_isSome _ _ h4
  · exact updF_none_d _
  · exact updF_of_isSome _ _ h5
  · exact updF_none_d _
  · exact updF_of_isSome _ _ h6
  · exact updF_of_isSome _ _ h7
  · rfl

theorem squeezelite_prepare_allSome (cfg : Config) :
    (squeezelite_prepare_config cfg).provider.isSome = true ∧
    (squeezelite_prepare_config cfg).device.isSome = true ∧
    (squeezelite_prepare_config cfg).server_ip.isSome = true ∧
    (squeezelite_prepare_config cfg).volume.isSome = true ∧
    (squeezelite_prepare_config cfg).autostart.isSome = true := by
  simp only [squeezelite_prepare_config]
  split <;> simp [dictUpdate, updF_some_isSome, squeezelite_default_config]

theorem sendspin_prepare_allSome (cfg : Config) :
    (sendspin_prepare_config cfg).provider.isSome = true ∧
    (sendspin_prepare_config cfg).device.isSome = true ∧
    (sendspin_prepare_config cfg).delay_ms.isSome = true ∧
    (sendspin_prepare_config cfg).log_level.isSome = true ∧
    (sendspin_prepare_config cfg).volume.isSome = true ∧
    (sendspin_prepare_config cfg).autostart.isSome = true := by
  simp only [sendspin_prepare_config]
  split <;> simp [dictUpdate, updF_some_isSome, sendspin_default_config]

theorem snapcast_prepare_allSome (cfg : Config) :
    (snapcast_prepare_config cfg).provider.isSome = true ∧
    (snapcast_prepare_config cfg).device.isSome = true ∧
    (snapcast_prepare_config cfg).server_ip.isSome = true ∧
    (snapcast_prepare_config cfg).latency.isSome = true ∧
    (snapcast_prepare_config cfg).volume.isSome = true ∧
    (snapcast_prepare_config cfg).autostart.isSome = true := by
  simp only [snapcast_prepare_config]
  split <;> simp [dictUpdate, updF_some_isSome, snapcast_default_config]

theorem squeezelite_prepare_mac_nonblank (cfg : Config) (n : String)
    (hn : cfg.name = some n) (hne : n ≠ "") :
    blankS (squeezelite_prepare_config cfg).mac_address = false := by
  have htr : truthyS (dictUpdate squeezelite_default_config cfg).name = true := by
    simp [dictUpdate, hn, truthyS_some_ne hne]
  simp only [squeezelite_prepare_config]
  split
  · exact blankS_some_ne (generate_mac_address_ne_empty _)
  · next h =>
    simp only [htr, Bool.and_true] at h
    simpa using h

theorem sendspin_prepare_cid_nonblank (cfg : Config) (n : String)
    (hn : cfg.name = some n) (hne : n ≠ "") :
    blankS (sendspin_prepare_config cfg).client_id = false := by
  have htr : truthyS (dictUpdate sendspin_default_config cfg).name = true := by
    simp [dictUpdate, hn, truthyS_some_ne hne]
  simp only [sendspin_prepare_config]
  split
  · exact blankS_some_ne (generate_client_id_ne_empty _)
  · next h =>
    simp only [htr, Bool.and_true] at h
    simpa using h

theorem snapcast_prepare_hid_nonblank (cfg : Config) (n : String)
    (hn : cfg.name = some n) (hne : n ≠ "") :
    blankS (snapcast_prepare_config cfg).host_id = false := by
  have htr : truthyS (dictUpdate snapcast_default_config cfg).name = true := by
    simp [dictUpdate, hn, truthyS_some_ne hne]
  simp only [snapcast_prepare_config]
  split
  · exact blankS_some_ne (generate_host_id_ne_empty _)
  · next h =>
    simp only [htr, Bool.and_true] at h
    simpa using h

theorem squeezelite_prepare_config_idem (cfg : Config) (n : String)
    (hn : cfg.name = some n) (hne : n ≠ "") :
    squeezelite_prepare_config (squeezelite_prepare_config cfg)
      = squeezelite_prepare_config cfg := by
  have hall := squeezelite_prepare_allSome cfg
  have hmac := squeezelite_prepare_mac_nonblank cfg n hn hne
  obtain ⟨r, hr⟩ : ∃ r, squeezelite_prepare_config cfg = r := ⟨_, rfl⟩
  rw [hr] at hall hmac ⊢
  have hid : dictUpdate squeezelite_default_config r = r :=
    dictUpdate_squeezelite_id r hall.1 hall.2.1 hall.2.2.1
      (isSome_of_blankS_false _ hmac) hall.2.2.2.1 hall.2.2.2.2
  simp only [squeezelite_prepare_config, hid, hmac, Bool.false_and, Bool.false_eq_true,
    if_false, if_neg, not_false_eq_true]

theorem sendspin_prepare_config_idem (cfg : Config) (n : String)
    (hn : cfg.name = some n) (hne : n ≠ "") :
    sendspin_prepare_config (sendspin_prepare_config cfg)
      = sendspin_prepare_config cfg := by
  have hall := sendspin_prepare_allSome cfg
  have hcid := sendspin_prepare_cid_nonblank cfg n hn hne
  obtain ⟨r, hr⟩ : ∃ r, sendspin_prepare_config cfg = r := ⟨_, rfl⟩
  rw [hr] at hall hcid ⊢
  have hid : dictUpdate sendspin_default_config r = r :=
    dictUpdate_sendspin_id r hall.1 hall.2.1 (isSome_of_blankS_false _ hcid)
      hall.2.2.1 hall.2.2.2.1 hall.2.2.2.2.1 hall.2.2.2.2.2
  simp only [sendspin_prepare_config, hid, hcid, Bool.false_and, Bool.false_eq_true,
    if_false, if_neg, not_false_eq_true]

theorem snapcast_prepare_config_idem (cfg : Config) (n : String)
    (hn : cfg.name = some n) (hne : n ≠ "") :
    snapcast_prepare_config (snapcast_prepare_config cfg)
      = snapcast_prepare_config cfg := by
  have hall := snapcast_prepare_allSome cfg
  have hhid := snapcast_prepare_hid_nonblank cfg n hn hne
  obtain ⟨r, hr⟩ : ∃ r, snapcast_prepare_config cfg = r := ⟨_, rfl⟩
  rw [hr] at hall hhid ⊢
  have hid : dictUpdate snapcast_default_config r = r :=
    dictUpdate_snapcast_id r hall.1 hall.2.1 hall.2.2.1 (isSome_of_blankS_false _ hhid)
      hall.2.2.2.1 hall.2.2.2.2.1 hall.2.2.2.2.2
  simp only [snapcast_prepare_config, hid, hhid, Bool.false_and, Bool.false_eq_true,
    if_false, if_neg, not_false_eq_true]

/-- C10: for every config with a non-empty name, each provider's
`prepare_config` is idempotent — a second application changes no field, since
all default keys are already present and the derived identifier is already
non-empty. -/
theorem prepare_config_idempotent (cfg : Config) (n : String)
    (hname : cfg.name = some n) (hne : n ≠ "") :
    squeezelite_prepare_config (squeezelite_prepare_config cfg)
      = squeezelite_prepare_config cfg ∧
    sendspin_prepare_config (sendspin_prepare_config cfg)
      = sendspin_prepare_config cfg ∧
    snapcast_prepare_config (snapcast_prepare_config cfg)
      = snapcast_prepare_config cfg :=
  ⟨squeezelite_prepare_config_idem cfg n hname hne,
   sendspin_prepare_config_idem cfg n hname hne,
   snapcast_prepare_config_idem cfg n hname hne⟩

/-- Witness for C10 at the concrete config with only the name "Kitchen". -/
theorem prepare_config_idempotent_witness :
    squeezelite_prepare_config (squeezelite_prepare_config { name := some "Kitchen" })
      = squeezelite_prepare_config { name := some "Kitchen" } ∧
    sendspin_prepare_config (sendspin_prepare_config { name := some "Kitchen" })
      = sendspin_prepare_config { name := some "Kitchen" } ∧
    snapcast_prepare_config (snapcast_prepare_config { name := some "Kitchen" })
      = snapcast_prepare_config { name := some "Kitchen" } :=
  prepare_config_idempotent { name := some "Kitchen" } "Kitchen" rfl (by decide)
